import Mathlib

/-!
# Verification of the egui-wgpu render-state lifecycle

Shallow embedding of `crates/egui-wgpu/src/lib.rs` and
`crates/egui_kittest/src/wgpu.rs`.

GPU driver calls (`wgpu::Instance::enumerate_adapters`,
`wgpu::Instance::request_adapter`, `wgpu::Adapter::request_device`,
`wgpu::Surface::get_capabilities`) are external effects; they are modelled by
an explicit environment record `Env` of response functions, and the calls the
code actually issues are recorded in an `Effects` record so that statements
about "skipped" or "not consulted" operations are expressible.  Log emission
(`log::info!` / `log::warn!` / `log::debug!`) is modelled by returning a list
of tagged `LogMsg` values.  The embedding follows the
`cfg(not(target_arch = "wasm32"))` (native) build of the crate, which is the
build the claims are about.
-/

namespace EguiWgpu

/-- The subset of `wgpu::TextureFormat` variants that appear in the sources
(`Rgba8UnormSrgb` and `Bgra8UnormSrgb` stand in for the infinitely many other
surface formats a driver can report). -/
inductive TextureFormat where
  | Rgba8Unorm
  | Bgra8Unorm
  | Rgba8UnormSrgb
  | Bgra8UnormSrgb
  | Stencil8
  | Depth16Unorm
  | Depth24Plus
  | Depth24PlusStencil8
  | Depth32Float
  | Depth32FloatStencil8
  deriving DecidableEq, Repr

/-- `wgpu::RequestDeviceError` (opaque to this crate; carries a message). -/
structure RequestDeviceErrorT where
  msg : String
  deriving DecidableEq, Repr

/-- The error enum `WgpuError` of `egui-wgpu/src/lib.rs` (lines 41-58).
The `winit` `HandleError` variant is feature-gated off. -/
inductive WgpuError where
  | NoSuitableAdapterFound (detail : String)
  | NoSurfaceFormatsAvailable
  | RequestDeviceError (e : RequestDeviceErrorT)
  | CreateSurfaceError
  deriving DecidableEq, Repr

/-- The loop test in `preferred_framebuffer_format`:
`matches!(format, Rgba8Unorm | Bgra8Unorm)`. -/
def isPreferredFormat (format : TextureFormat) : Bool :=
  match format with
  | .Rgba8Unorm => true
  | .Bgra8Unorm => true
  | _ => false

/-- `preferred_framebuffer_format` (lib.rs lines 507-523): scan the list and
return the first format matching `Rgba8Unorm | Bgra8Unorm`; otherwise fall
back to the first element; an empty list is `NoSurfaceFormatsAvailable`. -/
def preferred_framebuffer_format (formats : List TextureFormat) :
    Except WgpuError TextureFormat :=
  match formats.find? isPreferredFormat with
  | some format => .ok format
  | none =>
    match formats.head? with
    | some first => .ok first
    | none => .error .NoSurfaceFormatsAvailable

/-- `depth_format_from_bits` (lib.rs lines 526-536). `u8` arguments are
embedded as `Nat`; the Rust match is total on all of `u8 × u8` via its
wildcard arm, exactly as this `Nat` match is. -/
def depth_format_from_bits (depth_buffer stencil_buffer : Nat) :
    Option TextureFormat :=
  match depth_buffer, stencil_buffer with
  | 0, 8 => some .Stencil8
  | 16, 0 => some .Depth16Unorm
  | 24, 0 => some .Depth24Plus
  | 24, 8 => some .Depth24PlusStencil8
  | 32, 0 => some .Depth32Float
  | 32, 8 => some .Depth32FloatStencil8
  | _, _ => none

/-- The six (depth, stencil) pairs `depth_format_from_bits` recognises. -/
def depthFormatDomain : List (Nat × Nat) :=
  [(0, 8), (16, 0), (24, 0), (24, 8), (32, 0), (32, 8)]

/-- `wgpu::SurfaceError` as of the wgpu version this crate builds against. -/
inductive SurfaceError where
  | Timeout
  | Outdated
  | Lost
  | OutOfMemory
  deriving DecidableEq, Repr

/-- `SurfaceErrorAction` (lib.rs lines 281-287). -/
inductive SurfaceErrorAction where
  | SkipFrame
  | RecreateSurface
  deriving DecidableEq, Repr

/-- Tags for the log statements the embedded functions emit.  Only the tag and
the data the format string interpolates are modelled, not the rendered text. -/
inductive LogMsg where
  /-- `log::info!("No wgpu adapters found")` -/
  | infoNoAdaptersFound
  /-- `log::info!("The only available wgpu adapter was not suitable: …")` -/
  | infoOnlyAdapterUnsuitable
  /-- `log::info!("No suitable wgpu adapter found out of the {n} available ones: …")` -/
  | infoNoneOfNSuitable (n : Nat)
  /-- `log::debug!("Picked the only available wgpu adapter: …")` -/
  | debugPickedOnlyAdapter
  /-- `log::info!("There were {n} available wgpu adapters: …")` -/
  | infoAvailableAdapters (n : Nat)
  /-- `log::debug!("Picked wgpu adapter: …")` -/
  | debugPickedAdapter
  /-- `log::warn!("Dropped frame with error: {e}")` -/
  | warnDroppedFrame (e : SurfaceError)
  deriving DecidableEq, Repr

/-- The default `on_surface_error` closure of `WgpuConfiguration::default`
(lib.rs lines 489-498): warn unless the error is `Outdated`, always return
`SkipFrame`.  The emitted log messages are returned alongside the action. -/
def default_on_surface_error (err : SurfaceError) :
    SurfaceErrorAction × List LogMsg :=
  if err = SurfaceError.Outdated then
    (.SkipFrame, [])
  else
    (.SkipFrame, [.warnDroppedFrame err])

/-- The subset of `wgpu::Backend` this crate inspects. -/
inductive Backend where
  | Vulkan
  | Metal
  | Dx12
  | Gl
  | BrowserWebGpu
  deriving DecidableEq, Repr

/-- `wgpu::Backends` bit set.  Only its use as an opaque enumeration filter
matters here, so it is embedded as its raw bit value. -/
structure Backends where
  bits : Nat
  deriving DecidableEq, Repr

/-- `wgpu::Backends::all()`: all backend bits set (VULKAN | GL | METAL |
DX12 | BROWSER_WEBGPU = 1 | 2 | 4 | 8 | 16). -/
def Backends.all : Backends := ⟨31⟩

/-- `wgpu::PowerPreference`. -/
inductive PowerPreference where
  | None
  | LowPower
  | HighPerformance
  deriving DecidableEq, Repr

/-- Opaque handle to a `wgpu::Adapter`, together with the `backend` field of
its `AdapterInfo`, which is the only piece of adapter info the embedded code
branches on (in the default device-descriptor factory). -/
structure AdapterH where
  id : Nat
  backend : Backend
  deriving DecidableEq, Repr

/-- Opaque handle to a `wgpu::Device`. -/
structure DeviceH where
  id : Nat
  deriving DecidableEq, Repr

/-- Opaque handle to a `wgpu::Queue`. -/
structure QueueH where
  id : Nat
  deriving DecidableEq, Repr

/-- Opaque handle to a `wgpu::Instance`. -/
structure InstanceH where
  id : Nat
  deriving DecidableEq, Repr

/-- Opaque handle to a `wgpu::Surface`. -/
structure Surface where
  id : Nat
  deriving DecidableEq, Repr

/-- `wgpu::Features` bit set (only its default is used here). -/
structure Features where
  bits : Nat
  deriving DecidableEq, Repr

/-- `wgpu::Features::default()` is the empty feature set. -/
def Features.defaultValue : Features := ⟨0⟩

/-- The fields of `wgpu::Limits` the embedded code reads or writes.
Values below are the wgpu library's documented constants. -/
structure Limits where
  max_texture_dimension_1d : Nat
  max_texture_dimension_2d : Nat
  max_texture_dimension_3d : Nat
  deriving DecidableEq, Repr

/-- `wgpu::Limits::default()`: 8192 / 8192 / 2048. -/
def Limits.defaultValue : Limits :=
  { max_texture_dimension_1d := 8192
    max_texture_dimension_2d := 8192
    max_texture_dimension_3d := 2048 }

/-- `wgpu::Limits::downlevel_webgl2_defaults()`: 2048 / 2048 / 256. -/
def Limits.downlevel_webgl2_defaults : Limits :=
  { max_texture_dimension_1d := 2048
    max_texture_dimension_2d := 2048
    max_texture_dimension_3d := 256 }

/-- `wgpu::MemoryHints` (only its default is used here). -/
inductive MemoryHints where
  | Performance
  | MemoryUsage
  deriving DecidableEq, Repr

/-- `wgpu::DeviceDescriptor`. -/
structure DeviceDescriptor where
  label : Option String
  required_features : Features
  required_limits : Limits
  memory_hints : MemoryHints
  deriving DecidableEq, Repr

/-- `wgpu::DeviceDescriptor::default()`: no label, empty features, default
limits, default memory hints. -/
def DeviceDescriptor.defaultValue : DeviceDescriptor :=
  { label := none
    required_features := Features.defaultValue
    required_limits := Limits.defaultValue
    memory_hints := .Performance }

/-- The `device_descriptor` closure of `WgpuSetupCreateNew::default`
(lib.rs lines 409-427): webgl2 downlevel base limits on the GL backend,
default limits otherwise, with `max_texture_dimension_2d` overridden
to 8192 in either case. -/
def default_device_descriptor (adapter : AdapterH) : DeviceDescriptor :=
  let base_limits :=
    if adapter.backend = Backend.Gl then Limits.downlevel_webgl2_defaults
    else Limits.defaultValue
  { label := some "egui wgpu device"
    required_features := Features.defaultValue
    required_limits := { base_limits with max_texture_dimension_2d := 8192 }
    memory_hints := .Performance }

/-- The `device_descriptor` closure of `default_wgpu_setup` in
`egui_kittest/src/wgpu.rs` (lines 11-17): `|_| wgpu::DeviceDescriptor::default()`. -/
def default_wgpu_setup_device_descriptor (_adapter : AdapterH) :
    DeviceDescriptor :=
  DeviceDescriptor.defaultValue

/-- `wgpu::RequestAdapterOptions` as built by `request_adapter`
(lib.rs lines 96-104). -/
structure RequestAdapterOptions where
  power_preference : PowerPreference
  compatible_surface : Option Surface
  force_fallback_adapter : Bool
  deriving DecidableEq, Repr

/-- Responses of the external wgpu driver.  Each field models one driver
entry point the embedded code calls. -/
structure Env where
  /-- `wgpu::Instance::enumerate_adapters` (already `Arc`-wrapped). -/
  enumerate_adapters : Backends → List AdapterH
  /-- `wgpu::Instance::request_adapter`: the adapter the driver resolves for
  the given options, or `none`. -/
  instance_request_adapter : RequestAdapterOptions → Option AdapterH
  /-- `wgpu::Adapter::request_device` with a descriptor and optional trace
  path. -/
  request_device : AdapterH → DeviceDescriptor → Option String →
    Except RequestDeviceErrorT (DeviceH × QueueH)
  /-- `wgpu::Surface::get_capabilities(adapter).formats`. -/
  get_capabilities : Surface → AdapterH → List TextureFormat

/-- Driver calls issued during a run of `RenderState::create`, recorded so
that claims about skipped operations are expressible. -/
structure Effects where
  /-- Number of `enumerate_adapters` calls. -/
  enumerate_calls : Nat
  /-- Options of each `Instance::request_adapter` call, in order. -/
  adapter_requests : List RequestAdapterOptions
  /-- Number of `Adapter::request_device` calls. -/
  device_requests : Nat
  deriving DecidableEq, Repr

/-- The free function `request_adapter` (lib.rs lines 87-151), native build:
issue one driver adapter request with the given power preference, surface
compatibility, and no forced fallback; on `None` log one availability-count
diagnostic and fail with `NoSuitableAdapterFound`; on success log which
adapter was picked.  Returns the result together with the emitted logs. -/
def request_adapter (env : Env) (power_preference : PowerPreference)
    (surface : Surface) (available_adapters : List AdapterH) :
    Except WgpuError AdapterH × List LogMsg :=
  let opts : RequestAdapterOptions :=
    { power_preference := power_preference
      compatible_surface := some surface
      force_fallback_adapter := false }
  match env.instance_request_adapter opts with
  | none =>
    let diagnostic :=
      if available_adapters.isEmpty then
        LogMsg.infoNoAdaptersFound
      else if available_adapters.length = 1 then
        LogMsg.infoOnlyAdapterUnsuitable
      else
        LogMsg.infoNoneOfNSuitable available_adapters.length
    (.error (.NoSuitableAdapterFound "`request_adapters` returned `None`"),
      [diagnostic])
  | some adapter =>
    if available_adapters.length = 1 then
      (.ok adapter, [.debugPickedOnlyAdapter])
    else
      (.ok adapter,
        [.infoAvailableAdapters available_adapters.length,
          .debugPickedAdapter])

/-- `WgpuSetupCreateNew` (lib.rs lines 345-380).  The
`native_adapter_selector` is the optional selector function; the
`device_descriptor` is the factory closure. -/
structure WgpuSetupCreateNew where
  supported_backends : Backends
  power_preference : PowerPreference
  native_adapter_selector :
    Option (List AdapterH → Option Surface → Except String AdapterH)
  device_descriptor : AdapterH → DeviceDescriptor
  trace_path : Option String

/-- `WgpuSetup` (lib.rs lines 290-309). -/
inductive WgpuSetup where
  | CreateNew (cn : WgpuSetupCreateNew)
  | Existing (inst : InstanceH) (adapter : AdapterH) (device : DeviceH)
      (queue : QueueH)

/-- `wgpu::PresentMode` (only the default is used here). -/
inductive PresentMode where
  | AutoVsync
  | AutoNoVsync
  | Fifo
  deriving DecidableEq, Repr

/-- `WgpuConfiguration` (lib.rs lines 438-456). -/
structure WgpuConfiguration where
  present_mode : PresentMode
  desired_maximum_frame_latency : Option Nat
  wgpu_setup : WgpuSetup
  on_surface_error : SurfaceError → SurfaceErrorAction × List LogMsg

/-- The egui `Renderer` constructed by `Renderer::new` (its internals live in
the `renderer` module, outside the embedded sources); modelled as the record
of its construction arguments. -/
structure Renderer where
  device : DeviceH
  target_format : TextureFormat
  depth_format : Option TextureFormat
  msaa_samples : Nat
  dithering : Bool
  deriving DecidableEq, Repr

/-- `Renderer::new(&device, target_format, depth_format, msaa_samples,
dithering)`. -/
def Renderer.new (device : DeviceH) (target_format : TextureFormat)
    (depth_format : Option TextureFormat) (msaa_samples : Nat)
    (dithering : Bool) : Renderer :=
  { device := device
    target_format := target_format
    depth_format := depth_format
    msaa_samples := msaa_samples
    dithering := dithering }

/-- `RenderState` (lib.rs lines 62-85), native build (the
`available_adapters` field exists only off-web). -/
structure RenderStateE where
  adapter : AdapterH
  available_adapters : List AdapterH
  device : DeviceH
  queue : QueueH
  target_format : TextureFormat
  renderer : Renderer
  deriving DecidableEq, Repr

/-- The tail of `RenderState::create` shared by both setup branches
(lib.rs lines 233-259): query the surface capabilities of the chosen adapter,
pick the preferred framebuffer format (failing with
`NoSurfaceFormatsAvailable` on an empty list), construct the `Renderer`, and
assemble the `RenderState`. -/
def finishCreate (env : Env) (surface : Surface)
    (available_adapters : List AdapterH) (adapter : AdapterH)
    (device : DeviceH) (queue : QueueH)
    (depth_format : Option TextureFormat) (msaa_samples : Nat)
    (dithering : Bool) (eff : Effects) :
    Except WgpuError RenderStateE × Effects :=
  let capabilities := env.get_capabilities surface adapter
  match preferred_framebuffer_format capabilities with
  | .error e => (.error e, eff)
  | .ok target_format =>
    (.ok
      { adapter := adapter
        available_adapters := available_adapters
        device := device
        queue := queue
        target_format := target_format
        renderer :=
          Renderer.new device target_format depth_format msaa_samples
            dithering },
      eff)

/-- `RenderState::create` (lib.rs lines 158-259), native build.  Adapters are
enumerated first — with the configured backends in `CreateNew` mode and all
backends otherwise — then the setup mode decides how the adapter, device and
queue are obtained: `CreateNew` resolves them via the custom selector or a
driver adapter request followed by a device request; `Existing` takes the
caller-supplied triple as is.  Driver calls issued along the way are recorded
in the returned `Effects`. -/
def RenderState.create (env : Env) (config : WgpuConfiguration)
    (surface : Surface) (depth_format : Option TextureFormat)
    (msaa_samples : Nat) (dithering : Bool) :
    Except WgpuError RenderStateE × Effects :=
  let backends :=
    match config.wgpu_setup with
    | .CreateNew cn => cn.supported_backends
    | .Existing _ _ _ _ => Backends.all
  let available_adapters := env.enumerate_adapters backends
  match config.wgpu_setup with
  | .CreateNew cn =>
    let (adapterResult, adapterReqs) :=
      match cn.native_adapter_selector with
      | some selector =>
        (match selector available_adapters (some surface) with
          | .ok adapter => Except.ok adapter
          | .error s => Except.error (WgpuError.NoSuitableAdapterFound s),
          ([] : List RequestAdapterOptions))
      | none =>
        ((request_adapter env cn.power_preference surface
            available_adapters).1,
          [{ power_preference := cn.power_preference
             compatible_surface := some surface
             force_fallback_adapter := false }])
    match adapterResult with
    | .error e =>
      (.error e,
        { enumerate_calls := 1, adapter_requests := adapterReqs
          device_requests := 0 })
    | .ok adapter =>
      match
        env.request_device adapter (cn.device_descriptor adapter)
          cn.trace_path with
      | .error e =>
        (.error (.RequestDeviceError e),
          { enumerate_calls := 1, adapter_requests := adapterReqs
            device_requests := 1 })
      | .ok (device, queue) =>
        finishCreate env surface available_adapters adapter device queue
          depth_format msaa_samples dithering
          { enumerate_calls := 1, adapter_requests := adapterReqs
            device_requests := 1 }
  | .Existing _ adapter device queue =>
    finishCreate env surface available_adapters adapter device queue
      depth_format msaa_samples dithering
      { enumerate_calls := 1, adapter_requests := []
        device_requests := 0 }

/-- A `wgpu::CommandBuffer`: either one of the auxiliary buffers returned by
`Renderer::update_buffers`, or the buffer produced by `encoder.finish()`. -/
inductive CommandBuffer where
  | user (i : Nat)
  | finished
  deriving DecidableEq, Repr

/-- `wgpu::Color`; only the exact constant `TRANSPARENT` (all components
zero) is needed, so components are embedded as `Nat`. -/
structure Color where
  r : Nat
  g : Nat
  b : Nat
  a : Nat
  deriving DecidableEq, Repr

/-- `wgpu::Color::TRANSPARENT`. -/
def Color.TRANSPARENT : Color := ⟨0, 0, 0, 0⟩

/-- `wgpu::LoadOp`. -/
inductive LoadOp where
  | Clear (c : Color)
  | Load
  deriving DecidableEq, Repr

/-- `wgpu::StoreOp`. -/
inductive StoreOp where
  | Store
  | Discard
  deriving DecidableEq, Repr

/-- The `wgpu::TextureUsages` flags the test renderer sets. -/
inductive TextureUsage where
  | RENDER_ATTACHMENT
  | COPY_SRC
  deriving DecidableEq, Repr

/-- One GPU-facing step of `WgpuTestRenderer::render`
(egui_kittest/src/wgpu.rs lines 86-168), in the order the code performs
them. -/
inductive GpuOp where
  | createCommandEncoder (label : Option String)
  | updateBuffers
  | createTexture (format : TextureFormat) (usage : List TextureUsage)
      (width height : Nat)
  | beginRenderPass (load : LoadOp) (store : StoreOp)
  | rendererRender
  | endRenderPass
  | queueSubmit (buffers : List CommandBuffer)
  | devicePollWait
  | textureToImage
  deriving DecidableEq, Repr

/-- Recogniser for `queueSubmit` steps. -/
def GpuOp.isSubmit : GpuOp → Bool
  | .queueSubmit _ => true
  | _ => false

/-- Recogniser for `beginRenderPass` steps. -/
def GpuOp.isBeginPass : GpuOp → Bool
  | .beginRenderPass _ _ => true
  | _ => false

/-- The GPU-facing trace of `WgpuTestRenderer::render`
(egui_kittest/src/wgpu.rs lines 86-168): create the encoder, stage geometry
with `update_buffers` (whose returned auxiliary buffers are the
`user_buffers` parameter), create the offscreen `Rgba8Unorm` color texture
with render-attachment and copy-source usage, open one render pass that
clears to transparent and stores, record the draws, end the pass, submit
`user_buffers` chained with the finished encoder's buffer in one
`queue.submit` call, block on `device.poll(Maintain::Wait)`, and read the
texture back.  `width`/`height` are the screen descriptor's pixel
dimensions (their float rounding from the egui context is not modelled). -/
def WgpuTestRenderer.render_ops (user_buffers : List CommandBuffer)
    (width height : Nat) : List GpuOp :=
  [ .createCommandEncoder (some "Egui Command Encoder"),
    .updateBuffers,
    .createTexture TextureFormat.Rgba8Unorm
      [.RENDER_ATTACHMENT, .COPY_SRC] width height,
    .beginRenderPass (.Clear Color.TRANSPARENT) .Store,
    .rendererRender,
    .endRenderPass,
    .queueSubmit (user_buffers ++ [CommandBuffer.finished]),
    .devicePollWait,
    .textureToImage ]

/-- A driver environment that refuses every adapter request, for
exercising `request_adapter_fixed_error_detail`. -/
def envNoAdapter : Env :=
  { enumerate_adapters := fun _ => []
    instance_request_adapter := fun _ => none
    request_device := fun _ _ _ => .error ⟨"unreachable"⟩
    get_capabilities := fun _ _ => [] }

/-- A driver environment for exercising the `Existing` setup path: one
Vulkan adapter is enumerable and every surface reports `Bgra8Unorm` as its
only supported format. -/
def envExisting : Env :=
  { enumerate_adapters := fun _ => [⟨7, .Vulkan⟩]
    instance_request_adapter := fun _ => none
    request_device := fun _ _ _ => .error ⟨"unreachable"⟩
    get_capabilities := fun _ _ => [TextureFormat.Bgra8Unorm] }

/-- A configuration whose setup mode is `Existing` with a caller-supplied
instance, adapter, device, and queue. -/
def cfgExisting : WgpuConfiguration :=
  { present_mode := .AutoVsync
    desired_maximum_frame_latency := none
    wgpu_setup := .Existing ⟨0⟩ ⟨1, .Metal⟩ ⟨2⟩ ⟨3⟩
    on_surface_error := default_on_surface_error }

/-- A driver environment whose surface capability query reports an empty
supported-format list for every adapter. -/
def envEmptyFormats : Env :=
  { enumerate_adapters := fun _ => []
    instance_request_adapter := fun _ => none
    request_device := fun _ _ _ => .error ⟨"unreachable"⟩
    get_capabilities := fun _ _ => [] }

/-- An `Existing`-mode configuration used against `envEmptyFormats`. -/
def cfgEmptyFormats : WgpuConfiguration :=
  { present_mode := .AutoVsync
    desired_maximum_frame_latency := none
    wgpu_setup := .Existing ⟨0⟩ ⟨1, .Metal⟩ ⟨2⟩ ⟨3⟩
    on_surface_error := default_on_surface_error }

/-- A custom native adapter selector that always fails with a fixed
descriptive string. -/
def selectorAlwaysFails :
    List AdapterH → Option Surface → Except String AdapterH :=
  fun _ _ => .error "no adapter wanted"

/-- A `CreateNew` setup carrying `selectorAlwaysFails` as its custom native
adapter selector. -/
def cnWithSelector : WgpuSetupCreateNew :=
  { supported_backends := Backends.all
    power_preference := .HighPerformance
    native_adapter_selector := some selectorAlwaysFails
    device_descriptor := default_device_descriptor
    trace_path := none }

/-- A configuration whose setup mode is `CreateNew` with a custom selector. -/
def cfgWithSelector : WgpuConfiguration :=
  { present_mode := .AutoVsync
    desired_maximum_frame_latency := none
    wgpu_setup := .CreateNew cnWithSelector
    on_surface_error := default_on_surface_error }

/-- A driver environment used against `cfgWithSelector`: one Gl adapter is
enumerable, the driver would answer an adapter request, and every surface
reports `Rgba8Unorm`. -/
def envWithSelector : Env :=
  { enumerate_adapters := fun _ => [⟨9, .Gl⟩]
    instance_request_adapter := fun _ => some ⟨9, .Gl⟩
    request_device := fun _ _ _ => .ok (⟨2⟩, ⟨3⟩)
    get_capabilities := fun _ _ => [TextureFormat.Rgba8Unorm] }

end EguiWgpu

namespace EguiWgpu

/-- C4: For every nonempty format list containing neither `Rgba8Unorm` nor
`Bgra8Unorm`, `preferred_framebuffer_format` deterministically returns the
first element of the list. -/
theorem preferred_framebuffer_format_fallback_first
    (formats : List TextureFormat) (first : TextureFormat)
    (hhead : formats.head? = some first)
    (hnone : ∀ f ∈ formats, isPreferredFormat f = false) :
    preferred_framebuffer_format formats = .ok first := by
  have hfind : formats.find? isPreferredFormat = none := by
    rw [List.find?_eq_none]
    intro f hf
    simp [hnone f hf]
  simp [preferred_framebuffer_format, hfind, hhead]

/-- Witness for `preferred_framebuffer_format_fallback_first` at the concrete
list `[Rgba8UnormSrgb, Bgra8UnormSrgb]`. -/
theorem preferred_framebuffer_format_fallback_first_witness :
    preferred_framebuffer_format
      [TextureFormat.Rgba8UnormSrgb, TextureFormat.Bgra8UnormSrgb] =
      .ok TextureFormat.Rgba8UnormSrgb :=
  preferred_framebuffer_format_fallback_first
    [TextureFormat.Rgba8UnormSrgb, TextureFormat.Bgra8UnormSrgb]
    TextureFormat.Rgba8UnormSrgb (by decide) (by decide)

/-- C1 counterexample: both preferred formats are present at different
positions, with `Bgra8Unorm` first, and the function returns `Bgra8Unorm`,
not `Rgba8Unorm` — the result depends on list order, refuting the claimed
fixed preference for `Rgba8Unorm`. -/
theorem preferred_framebuffer_format_no_fixed_preference :
    preferred_framebuffer_format
        [TextureFormat.Bgra8Unorm, TextureFormat.Rgba8Unorm] =
      .ok TextureFormat.Bgra8Unorm ∧
    TextureFormat.Bgra8Unorm ≠ TextureFormat.Rgba8Unorm :=
  ⟨rfl, by decide⟩

/-- C1 (amended): for every format list containing at least one of
`Rgba8Unorm` or `Bgra8Unorm`, the function returns `.ok` of the first element
of the list that is one of those two formats (so the result is always one of
them, but which of the two wins is decided by list order, not by a fixed
Rgba8-over-Bgra8 preference). -/
theorem preferred_framebuffer_format_first_preferred
    (formats : List TextureFormat)
    (hsome : ∃ f ∈ formats, isPreferredFormat f = true) :
    ∃ g, preferred_framebuffer_format formats = .ok g ∧
      isPreferredFormat g = true ∧
      formats.find? isPreferredFormat = some g := by
  obtain ⟨f, hf, hpf⟩ := hsome
  have hisSome : (formats.find? isPreferredFormat).isSome := by
    rw [List.find?_isSome]
    exact ⟨f, hf, hpf⟩
  obtain ⟨g, hg⟩ := Option.isSome_iff_exists.mp hisSome
  refine ⟨g, ?_, List.find?_some hg, hg⟩
  simp [preferred_framebuffer_format, hg]

/-- Witness for `preferred_framebuffer_format_first_preferred` at the concrete
list `[Bgra8UnormSrgb, Rgba8Unorm, Bgra8Unorm]`. -/
theorem preferred_framebuffer_format_first_preferred_witness :
    ∃ g, preferred_framebuffer_format
        [TextureFormat.Bgra8UnormSrgb, TextureFormat.Rgba8Unorm,
          TextureFormat.Bgra8Unorm] = .ok g ∧
      isPreferredFormat g = true ∧
      List.find? isPreferredFormat
        [TextureFormat.Bgra8UnormSrgb, TextureFormat.Rgba8Unorm,
          TextureFormat.Bgra8Unorm] = some g :=
  preferred_framebuffer_format_first_preferred
    [TextureFormat.Bgra8UnormSrgb, TextureFormat.Rgba8Unorm,
      TextureFormat.Bgra8Unorm]
    ⟨TextureFormat.Rgba8Unorm, by decide, by decide⟩

/-- C6: `depth_format_from_bits` maps exactly the six pairs
(0,8), (16,0), (24,0), (24,8), (32,0), (32,8) to `some` of six pairwise
distinct formats and returns `none` on every other pair. -/
theorem depth_format_from_bits_spec :
    (depth_format_from_bits 0 8 = some .Stencil8 ∧
     depth_format_from_bits 16 0 = some .Depth16Unorm ∧
     depth_format_from_bits 24 0 = some .Depth24Plus ∧
     depth_format_from_bits 24 8 = some .Depth24PlusStencil8 ∧
     depth_format_from_bits 32 0 = some .Depth32Float ∧
     depth_format_from_bits 32 8 = some .Depth32FloatStencil8) ∧
    ([TextureFormat.Stencil8, .Depth16Unorm, .Depth24Plus,
      .Depth24PlusStencil8, .Depth32Float, .Depth32FloatStencil8].Pairwise
        (fun a b => a ≠ b)) ∧
    (∀ d s : Nat, (d, s) ∉ depthFormatDomain →
      depth_format_from_bits d s = none) := by
  refine ⟨by decide, by decide, ?_⟩
  intro d s hmem
  unfold depth_format_from_bits
  split
  · exact absurd (by simp [depthFormatDomain]) hmem
  · exact absurd (by simp [depthFormatDomain]) hmem
  · exact absurd (by simp [depthFormatDomain]) hmem
  · exact absurd (by simp [depthFormatDomain]) hmem
  · exact absurd (by simp [depthFormatDomain]) hmem
  · exact absurd (by simp [depthFormatDomain]) hmem
  · rfl

/-- Witness for `depth_format_from_bits_spec`: the out-of-domain branch at the
concrete pair (8, 8). -/
theorem depth_format_from_bits_spec_witness :
    depth_format_from_bits 8 8 = none :=
  depth_format_from_bits_spec.2.2 8 8 (by decide)

/-- C7: the default surface-error policy always returns `SkipFrame` (never
`RecreateSurface`); it emits no diagnostic exactly when the error is
`Outdated`, and emits the dropped-frame warning for every other error. -/
theorem default_on_surface_error_spec (err : SurfaceError) :
    (default_on_surface_error err).1 = .SkipFrame ∧
    ((default_on_surface_error err).2 = [] ↔ err = .Outdated) ∧
    (err ≠ .Outdated →
      (default_on_surface_error err).2 = [.warnDroppedFrame err]) := by
  cases err <;> simp [default_on_surface_error]

/-- Witness for `default_on_surface_error_spec` at the concrete errors
`Outdated` (silent) and `Timeout` (warned), discharging the inner
hypotheses. -/
theorem default_on_surface_error_spec_witness :
    (default_on_surface_error .Outdated).2 = [] ∧
    (default_on_surface_error .Timeout).2 =
      [.warnDroppedFrame .Timeout] :=
  ⟨((default_on_surface_error_spec SurfaceError.Outdated).2.1).mpr rfl,
   (default_on_surface_error_spec SurfaceError.Timeout).2.2 (by decide)⟩

/-- C3: both device-descriptor factories in the sources — the default
`CreateNew` factory of egui-wgpu and the factory of the test renderer's
`default_wgpu_setup` — request, for every adapter, a maximum 2D texture
dimension of at least 8192 in their required limits. -/
theorem device_descriptor_factories_limit (adapter : AdapterH) :
    8192 ≤
      (default_device_descriptor adapter).required_limits.max_texture_dimension_2d ∧
    8192 ≤
      (default_wgpu_setup_device_descriptor adapter).required_limits.max_texture_dimension_2d :=
  ⟨Nat.le.refl, Nat.le.refl⟩

/-- C10: whenever the driver's adapter request returns `None`,
`request_adapter` fails with `NoSuitableAdapterFound` whose detail string is
exactly `` `request_adapters` returned `None` `` for every enumerated-adapter
list, while the enumeration-count-dependent diagnostic (none found / the only
one unsuitable / none of N suitable) appears only in the emitted log
messages. -/
theorem request_adapter_fixed_error_detail (env : Env)
    (pp : PowerPreference) (surface : Surface) (avail : List AdapterH)
    (h : env.instance_request_adapter
        { power_preference := pp, compatible_surface := some surface
          force_fallback_adapter := false } = none) :
    (request_adapter env pp surface avail).1 =
      .error (.NoSuitableAdapterFound "`request_adapters` returned `None`") ∧
    (request_adapter env pp surface avail).2 =
      [if avail.isEmpty then LogMsg.infoNoAdaptersFound
       else if avail.length = 1 then LogMsg.infoOnlyAdapterUnsuitable
       else LogMsg.infoNoneOfNSuitable avail.length] := by
  constructor <;> simp [request_adapter, h]

/-- Witness for `request_adapter_fixed_error_detail`: two concrete
enumerated-adapter lists of different lengths produce the same error value
but different diagnostics. -/
theorem request_adapter_fixed_error_detail_witness :
    (request_adapter envNoAdapter .HighPerformance ⟨0⟩ []).1 =
      .error (.NoSuitableAdapterFound "`request_adapters` returned `None`") ∧
    (request_adapter envNoAdapter .HighPerformance ⟨0⟩
        [⟨1, .Vulkan⟩, ⟨2, .Gl⟩]).1 =
      .error (.NoSuitableAdapterFound "`request_adapters` returned `None`") ∧
    (request_adapter envNoAdapter .HighPerformance ⟨0⟩ []).2 =
      [LogMsg.infoNoAdaptersFound] ∧
    (request_adapter envNoAdapter .HighPerformance ⟨0⟩
        [⟨1, .Vulkan⟩, ⟨2, .Gl⟩]).2 =
      [LogMsg.infoNoneOfNSuitable 2] :=
  ⟨(request_adapter_fixed_error_detail envNoAdapter .HighPerformance ⟨0⟩ []
      rfl).1,
   (request_adapter_fixed_error_detail envNoAdapter .HighPerformance ⟨0⟩
      [⟨1, .Vulkan⟩, ⟨2, .Gl⟩] rfl).1,
   (request_adapter_fixed_error_detail envNoAdapter .HighPerformance ⟨0⟩ []
      rfl).2,
   (request_adapter_fixed_error_detail envNoAdapter .HighPerformance ⟨0⟩
      [⟨1, .Vulkan⟩, ⟨2, .Gl⟩] rfl).2⟩

/-- C9: in the offscreen render trace, there is exactly one queue
submission, and it submits the auxiliary buffers returned by
`update_buffers` followed by the finished primary encoder buffer, in that
order, in a single batch; and there is exactly one render pass, whose color
attachment is loaded by clearing to transparent and stored with
`StoreOp::Store`. -/
theorem wgpu_test_renderer_render_protocol
    (user_buffers : List CommandBuffer) (width height : Nat) :
    (GpuOp.queueSubmit (user_buffers ++ [CommandBuffer.finished]) ∈
      WgpuTestRenderer.render_ops user_buffers width height) ∧
    (∀ l, GpuOp.queueSubmit l ∈
        WgpuTestRenderer.render_ops user_buffers width height →
      l = user_buffers ++ [CommandBuffer.finished]) ∧
    ((WgpuTestRenderer.render_ops user_buffers width height).countP
        GpuOp.isSubmit = 1) ∧
    (GpuOp.beginRenderPass (.Clear Color.TRANSPARENT) .Store ∈
      WgpuTestRenderer.render_ops user_buffers width height) ∧
    (∀ load store, GpuOp.beginRenderPass load store ∈
        WgpuTestRenderer.render_ops user_buffers width height →
      load = .Clear Color.TRANSPARENT ∧ store = .Store) ∧
    ((WgpuTestRenderer.render_ops user_buffers width height).countP
        GpuOp.isBeginPass = 1) := by
  refine ⟨?_, ?_, ?_, ?_, ?_, ?_⟩
  · simp [WgpuTestRenderer.render_ops]
  · intro l hl
    simp [WgpuTestRenderer.render_ops] at hl
    exact hl
  · rfl
  · simp [WgpuTestRenderer.render_ops]
  · intro load store hl
    simp [WgpuTestRenderer.render_ops] at hl
    exact ⟨hl.1, hl.2⟩
  · rfl

/-- Witness for `wgpu_test_renderer_render_protocol` at a concrete
two-buffer frame, discharging the membership hypotheses of the inner
implications at the trace's own submit and render-pass entries. -/
theorem wgpu_test_renderer_render_protocol_witness :
    ([CommandBuffer.user 0, CommandBuffer.user 1] ++
        [CommandBuffer.finished] =
      [CommandBuffer.user 0, CommandBuffer.user 1, CommandBuffer.finished]) ∧
    (LoadOp.Clear Color.TRANSPARENT = .Clear Color.TRANSPARENT ∧
      StoreOp.Store = .Store) :=
  ⟨(wgpu_test_renderer_render_protocol
      [CommandBuffer.user 0, CommandBuffer.user 1] 640 480).2.1
      [CommandBuffer.user 0, CommandBuffer.user 1, CommandBuffer.finished]
      (by simp [WgpuTestRenderer.render_ops]),
   (wgpu_test_renderer_render_protocol
      [CommandBuffer.user 0, CommandBuffer.user 1] 640 480).2.2.2.2.1
      (.Clear Color.TRANSPARENT) .Store
      (by simp [WgpuTestRenderer.render_ops])⟩

/-- Helper: a format list with a head always yields a successfully chosen
framebuffer format. -/
theorem preferred_framebuffer_format_ok_of_head
    (formats : List TextureFormat) (x : TextureFormat)
    (h : formats.head? = some x) :
    ∃ g, preferred_framebuffer_format formats = .ok g := by
  unfold preferred_framebuffer_format
  cases hf : formats.find? isPreferredFormat with
  | some g => exact ⟨g, rfl⟩
  | none => exact ⟨x, by simp [h]⟩

/-- Helper: the construction tail never changes the recorded effects. -/
theorem finishCreate_effects (env : Env) (surface : Surface)
    (avail : List AdapterH) (a : AdapterH) (d : DeviceH) (q : QueueH)
    (depth_format : Option TextureFormat) (msaa_samples : Nat)
    (dithering : Bool) (eff : Effects) :
    (finishCreate env surface avail a d q depth_format msaa_samples
      dithering eff).2 = eff := by
  simp only [finishCreate]
  split <;> rfl

/-- C2 counterexample: with the `Existing` setup mode, adapter enumeration is
NOT skipped — at this concrete environment the run records one
`enumerate_adapters` driver call and the enumerated adapter list is even
stored in the resulting `RenderState` — refuting the claim that enumeration
is skipped (the adapter request and device request are skipped, as the empty
`adapter_requests` and zero `device_requests` of the amended theorem show). -/
theorem create_existing_enumeration_not_skipped :
    (RenderState.create envExisting cfgExisting ⟨0⟩ none 1 false).2.enumerate_calls = 1 ∧
    (RenderState.create envExisting cfgExisting ⟨0⟩ none 1 false).1 =
      .ok { adapter := ⟨1, .Metal⟩
            available_adapters := [⟨7, .Vulkan⟩]
            device := ⟨2⟩
            queue := ⟨3⟩
            target_format := .Bgra8Unorm
            renderer := Renderer.new ⟨2⟩ .Bgra8Unorm none 1 false } :=
  ⟨rfl, rfl⟩

/-- C2 (amended): with the `Existing` setup mode, the adapter request and
the device request are skipped (no driver adapter or device call is issued),
but adapter enumeration still runs once with all backends; the
caller-supplied adapter, device, and queue are placed into any resulting
`RenderState` unchanged; and no compatibility validation is performed —
construction succeeds for every caller triple whenever the capability query
reports a nonempty format list. -/
theorem create_existing_behaviour (env : Env) (cfg : WgpuConfiguration)
    (inst : InstanceH) (a : AdapterH) (d : DeviceH) (q : QueueH)
    (surface : Surface) (depth_format : Option TextureFormat)
    (msaa_samples : Nat) (dithering : Bool)
    (hsetup : cfg.wgpu_setup = .Existing inst a d q) :
    (RenderState.create env cfg surface depth_format msaa_samples dithering).2.adapter_requests = [] ∧
    (RenderState.create env cfg surface depth_format msaa_samples dithering).2.device_requests = 0 ∧
    (RenderState.create env cfg surface depth_format msaa_samples dithering).2.enumerate_calls = 1 ∧
    (∀ st,
      (RenderState.create env cfg surface depth_format msaa_samples dithering).1 = .ok st →
      st.adapter = a ∧ st.device = d ∧ st.queue = q ∧
        st.available_adapters = env.enumerate_adapters Backends.all) ∧
    (∀ fmt, (env.get_capabilities surface a).head? = some fmt →
      ∃ st,
        (RenderState.create env cfg surface depth_format msaa_samples dithering).1 = .ok st) := by
  obtain ⟨pm, dml, setup, ose⟩ := cfg
  replace hsetup : setup = .Existing inst a d q := hsetup
  subst hsetup
  have heff :=
    finishCreate_effects env surface (env.enumerate_adapters Backends.all)
      a d q depth_format msaa_samples dithering
      ⟨1, [], 0⟩
  refine ⟨?_, ?_, ?_, ?_, ?_⟩
  · simp only [RenderState.create]
    rw [heff]
  · simp only [RenderState.create]
    rw [heff]
  · simp only [RenderState.create]
    rw [heff]
  · intro st hst
    simp only [RenderState.create, finishCreate] at hst
    cases hfmt : preferred_framebuffer_format (env.get_capabilities surface a) with
    | error e => simp [hfmt] at hst
    | ok g =>
      simp [hfmt] at hst
      subst hst
      exact ⟨rfl, rfl, rfl, rfl⟩
  · intro fmt hfmt
    obtain ⟨g, hg⟩ :=
      preferred_framebuffer_format_ok_of_head
        (env.get_capabilities surface a) fmt hfmt
    simp only [RenderState.create, finishCreate]
    rw [hg]
    exact ⟨_, rfl⟩

/-- Witness for `create_existing_behaviour` at the concrete environment
`envExisting` and configuration `cfgExisting`. -/
theorem create_existing_behaviour_witness :
    (RenderState.create envExisting cfgExisting ⟨0⟩ none 1 false).2.adapter_requests = [] ∧
    (RenderState.create envExisting cfgExisting ⟨0⟩ none 1 false).2.device_requests = 0 ∧
    ∃ st, (RenderState.create envExisting cfgExisting ⟨0⟩ none 1 false).1 = .ok st := by
  have h :=
    create_existing_behaviour envExisting cfgExisting ⟨0⟩ ⟨1, .Metal⟩ ⟨2⟩ ⟨3⟩
      ⟨0⟩ none 1 false rfl
  exact ⟨h.1, h.2.1, h.2.2.2.2 .Bgra8Unorm rfl⟩

/-- C5: when the surface capability query reports an empty supported-format
list, the construction stage of `RenderState::create` that performs the
query fails with exactly `NoSurfaceFormatsAvailable` (leaving the effects
record untouched), and `RenderState::create` never returns a `RenderState` —
no partially constructed state is observable. -/
theorem create_empty_formats_fails (env : Env) (cfg : WgpuConfiguration)
    (surface : Surface) (depth_format : Option TextureFormat)
    (msaa_samples : Nat) (dithering : Bool)
    (hempty : ∀ a, env.get_capabilities surface a = []) :
    (∀ st,
      (RenderState.create env cfg surface depth_format msaa_samples dithering).1 ≠ .ok st) ∧
    (∀ avail a d q eff,
      finishCreate env surface avail a d q depth_format msaa_samples
          dithering eff =
        (.error .NoSurfaceFormatsAvailable, eff)) := by
  have hfin : ∀ avail a d q eff,
      finishCreate env surface avail a d q depth_format msaa_samples
          dithering eff =
        (.error .NoSurfaceFormatsAvailable, eff) := by
    intro avail a d q eff
    simp [finishCreate, hempty a, preferred_framebuffer_format]
  refine ⟨?_, hfin⟩
  intro st
  obtain ⟨pm, dml, setup, ose⟩ := cfg
  cases setup with
  | Existing inst a d q =>
    simp [RenderState.create, hfin]
  | CreateNew cn =>
    simp only [RenderState.create]
    cases hsel : cn.native_adapter_selector with
    | some sel =>
      simp only [hsel]
      cases hres : sel (env.enumerate_adapters cn.supported_backends)
          (some surface) with
      | error s => simp [hres]
      | ok a =>
        cases hdev : env.request_device a (cn.device_descriptor a)
            cn.trace_path with
        | error e => simp [hres, hdev]
        | ok dq =>
          obtain ⟨d, q⟩ := dq
          simp [hres, hdev, hfin]
    | none =>
      simp only [hsel]
      cases hreq : (request_adapter env cn.power_preference surface
          (env.enumerate_adapters cn.supported_backends)).1 with
      | error e => simp [hreq]
      | ok a =>
        cases hdev : env.request_device a (cn.device_descriptor a)
            cn.trace_path with
        | error e => simp [hreq, hdev]
        | ok dq =>
          obtain ⟨d, q⟩ := dq
          simp [hreq, hdev, hfin]

/-- Witness for `create_empty_formats_fails` at the concrete environment
`envEmptyFormats` and configuration `cfgEmptyFormats`. -/
theorem create_empty_formats_fails_witness :
    (RenderState.create envEmptyFormats cfgEmptyFormats ⟨0⟩ none 1 false).1 ≠
      .ok { adapter := ⟨1, .Metal⟩
            available_adapters := []
            device := ⟨2⟩
            queue := ⟨3⟩
            target_format := .Bgra8Unorm
            renderer := Renderer.new ⟨2⟩ .Bgra8Unorm none 1 false } ∧
    finishCreate envEmptyFormats ⟨0⟩ [] ⟨1, .Metal⟩ ⟨2⟩ ⟨3⟩ none 1 false
        ⟨1, [], 0⟩ =
      (.error .NoSurfaceFormatsAvailable, ⟨1, [], 0⟩) := by
  have h :=
    create_empty_formats_fails envEmptyFormats cfgEmptyFormats ⟨0⟩ none 1
      false (fun _ => rfl)
  exact ⟨h.1 _, h.2 [] ⟨1, .Metal⟩ ⟨2⟩ ⟨3⟩ ⟨1, [], 0⟩⟩

/-- C8: on native, when a `CreateNew` setup carries a custom adapter
selector, no driver adapter request is issued (so the configured power
preference is never consulted); adapter resolution is decided by the
selector applied to the enumerated adapter list and the surface: a failure
string `s` from the selector makes creation fail with
`NoSuitableAdapterFound s` carrying exactly that string, and a selector
success is the adapter placed in any resulting `RenderState`. -/
theorem create_custom_selector_precedence (env : Env)
    (cfg : WgpuConfiguration) (cn : WgpuSetupCreateNew)
    (selector : List AdapterH → Option Surface → Except String AdapterH)
    (surface : Surface) (depth_format : Option TextureFormat)
    (msaa_samples : Nat) (dithering : Bool)
    (hsetup : cfg.wgpu_setup = .CreateNew cn)
    (hsel : cn.native_adapter_selector = some selector) :
    (RenderState.create env cfg surface depth_format msaa_samples dithering).2.adapter_requests = [] ∧
    (∀ s,
      selector (env.enumerate_adapters cn.supported_backends) (some surface) = .error s →
      (RenderState.create env cfg surface depth_format msaa_samples dithering).1 =
        .error (.NoSuitableAdapterFound s)) ∧
    (∀ a,
      selector (env.enumerate_adapters cn.supported_backends) (some surface) = .ok a →
      ∀ st,
        (RenderState.create env cfg surface depth_format msaa_samples dithering).1 = .ok st →
        st.adapter = a) := by
  obtain ⟨pm, dml, setup, ose⟩ := cfg
  replace hsetup : setup = .CreateNew cn := hsetup
  subst hsetup
  simp only [RenderState.create, hsel]
  refine ⟨?_, ?_, ?_⟩
  · cases hres : selector (env.enumerate_adapters cn.supported_backends)
        (some surface) with
    | error s => simp [hres]
    | ok a =>
      cases hdev : env.request_device a (cn.device_descriptor a)
          cn.trace_path with
      | error e => simp [hres, hdev]
      | ok dq =>
        obtain ⟨d, q⟩ := dq
        simp [hres, hdev, finishCreate_effects]
  · intro s hs
    simp [hs]
  · intro a ha st hst
    simp only [ha] at hst
    cases hdev : env.request_device a (cn.device_descriptor a)
        cn.trace_path with
    | error e => simp [hdev] at hst
    | ok dq =>
      obtain ⟨d, q⟩ := dq
      simp only [hdev, finishCreate] at hst
      cases hfmt : preferred_framebuffer_format
          (env.get_capabilities surface a) with
      | error e => simp [hfmt] at hst
      | ok g =>
        simp [hfmt] at hst
        subst hst
        rfl

/-- Witness for `create_custom_selector_precedence` at the concrete
environment `envWithSelector` and configuration `cfgWithSelector`, whose
selector fails with the string "no adapter wanted". -/
theorem create_custom_selector_precedence_witness :
    (RenderState.create envWithSelector cfgWithSelector ⟨0⟩ none 1 false).2.adapter_requests = [] ∧
    (RenderState.create envWithSelector cfgWithSelector ⟨0⟩ none 1 false).1 =
      .error (.NoSuitableAdapterFound "no adapter wanted") := by
  have h :=
    create_custom_selector_precedence envWithSelector cfgWithSelector
      cnWithSelector selectorAlwaysFails ⟨0⟩ none 1 false rfl rfl
  exact ⟨h.1, h.2.1 "no adapter wanted" rfl⟩

end EguiWgpu
